import Mathlib

/-!
Shallow embedding of the RAG-pipeline core of the repository:

* text-quality utilities     (src/utils/text_quality.py)
* the markdown chunker       (src/utils/chunker.py)
* the prompt builder         (src/services/prompt.py)
* the retrieval-generation pipeline (src/services/pipeline.py)

Python strings are modelled as Lean `String`s (lists of Unicode code points,
matching CPython `str` indexing/length semantics).  Python float comparisons
against the fixed thresholds 0.7, 0.8, 0.3, 0.2, 0.5 are modelled by exact
integer cross-multiplication; for the word counts that occur here the double
rounding of `m / n` never crosses the rounded threshold constants, so the
integer model agrees with the float comparisons.  Relevance scores are
modelled as rationals.
-/

/-- Python whitespace characters as used by `str.strip` / `str.split` / `\s`
(the ASCII ones; the text handled by this code base contains no exotic
Unicode spaces). -/
def isPySpace (c : Char) : Bool :=
  c = ' ' || c = '\t' || c = '\n' || c = '\r' || c = Char.ofNat 11 || c = Char.ofNat 12

/-- Python `str.strip()` on a character list. -/
def pyStripL (cs : List Char) : List Char :=
  ((cs.dropWhile isPySpace).reverse.dropWhile isPySpace).reverse

/-- Python `str.strip()`. -/
def pyStrip (s : String) : String := ⟨pyStripL s.data⟩

theorem length_dropWhile_le (p : α → Bool) (l : List α) :
    (l.dropWhile p).length ≤ l.length :=
  (List.dropWhile_suffix p).length_le

/-- One pass of Python `str.split()`: `acc` holds the current word in
reverse. -/
def splitWsAux (acc : List Char) : List Char → List (List Char)
  | [] => if acc.isEmpty then [] else [acc.reverse]
  | c :: cs =>
    if isPySpace c then
      if acc.isEmpty then splitWsAux [] cs
      else acc.reverse :: splitWsAux [] cs
    else splitWsAux (c :: acc) cs

/-- Python `str.split()` (split on whitespace runs, no empty pieces). -/
def pySplitWsL (cs : List Char) : List (List Char) := splitWsAux [] cs

/-- The words of a string, Python `s.split()`. -/
def pyWords (s : String) : List String := (pySplitWsL s.data).map (fun w => (⟨w⟩ : String))

/-- The sentence-terminator characters of the regex class `[.!?]`. -/
def isTermChar (c : Char) : Bool := c = '.' || c = '!' || c = '?'

/-- Whether a character opens a separator of the regex `[.!?]\s+` here: a
terminator whose successor exists and is whitespace. -/
def opensSep (c : Char) : List Char → Bool
  | d :: _ => isTermChar c && isPySpace d
  | [] => false

/-- One pass of Python `re.split` with the capturing pattern `([.!?]\s+)`:
`acc` holds the current piece in reverse; a nonempty `sep` means we are
inside a separator run whose characters (terminator first) are in `sep`,
reversed.  The final pair carries an empty separator. -/
def splitSentGo (acc sep : List Char) : List Char → List (List Char × List Char)
  | [] =>
    if sep.isEmpty then [(acc.reverse, [])]
    else [(acc.reverse, sep.reverse), ([], [])]
  | c :: cs =>
    if sep.isEmpty then
      if opensSep c cs then splitSentGo acc [c] cs
      else splitSentGo (c :: acc) [] cs
    else
      if isPySpace c then splitSentGo acc (c :: sep) cs
      else
        (acc.reverse, sep.reverse) ::
          (if opensSep c cs then splitSentGo [] [c] cs else splitSentGo [c] [] cs)

/-- Python `re.split` with the capturing pattern `([.!?]\s+)`, returned as
(piece, separator) pairs; the final pair carries an empty separator.  A
separator is a terminator character followed by a maximal run of whitespace. -/
def splitSentencesAux (acc cs : List Char) : List (List Char × List Char) :=
  splitSentGo acc [] cs

/-- Sentence/separator pairs of a string. -/
def splitSentences (s : String) : List (String × String) :=
  (splitSentencesAux [] s.data).map (fun p => ((⟨p.1⟩ : String), (⟨p.2⟩ : String)))

/-- The sentence pieces of Python `re.split(r'[.!?]\s+', text)` (separators
dropped, which for this pattern is exactly the non-captured split). -/
def sentencePieces (s : String) : List String := (splitSentences s).map Prod.fst

/-- Cardinality of `set(a) & set(b)`. -/
def setInterCard (a b : List String) : Nat := (a.dedup.filter (fun w => w ∈ b)).length

/-- Cardinality of `set(a) | set(b)`. -/
def setUnionCard (a b : List String) : Nat := a.dedup.length + b.dedup.length - setInterCard a b

/-- Largest multiplicity of any word in the list (Python
`max(word_counts.values())`, `0` when empty). -/
def maxWordCount (ws : List String) : Nat := (ws.map (fun w => ws.count w)).foldr max 0

/-- The adjacent-pair test in the loop of detect_repetition: stripped
sentences equal, or the number of shared distinct words exceeds 70% of the
larger word count (Python: `common_length / total_words > 0.7`). -/
def pairRepeat (s1 s2 : String) : Bool :=
  let current := pyStrip s1
  let nextSent := pyStrip s2
  decide (current = nextSent) ||
    (decide (current ≠ "") && decide (nextSent ≠ "") &&
      (let commonLength := setInterCard (pyWords current) (pyWords nextSent)
       let totalWords := max (pyWords current).length (pyWords nextSent).length
       decide (0 < totalWords) && decide (7 * totalWords < 10 * commonLength)))

/-- The adjacent-sentence scan of detect_repetition: every consecutive pair
is examined, a pair being skipped when the first (raw) sentence is shorter
than `minRepeatLength`. -/
def adjacentRepeat (minRepeatLength : Nat) : List String → Bool
  | s1 :: s2 :: rest =>
    (decide (minRepeatLength ≤ s1.length) && pairRepeat s1 s2) ||
      adjacentRepeat minRepeatLength (s2 :: rest)
  | _ => false

/-- text_quality.detect_repetition. -/
def detect_repetition (text : String) (minRepeatLength : Nat := 20) : Bool :=
  if text = "" ∨ text.length < 2 * minRepeatLength then false
  else
    if adjacentRepeat minRepeatLength (sentencePieces text) then true
    else
      let words := pyWords text
      if 10 < words.length then decide (3 * words.length < 10 * maxWordCount words)
      else false

/-- The duplicate test of clean_repetitive_text: word-set Jaccard
similarity strictly above 0.8 (Python: `similarity > 0.8`). -/
def similar80 (a b : String) : Bool :=
  let aw := pyWords a
  let bw := pyWords b
  decide (0 < aw.dedup.length) && decide (0 < bw.dedup.length) &&
    decide (4 * setUnionCard aw bw < 5 * setInterCard aw bw)

/-- The sentence-keeping loop of clean_repetitive_text: a sentence is kept
(together with its trailing separator) when its strip is non-empty and it is
not similar to any previously kept sentence. -/
def cleanLoop : List (List Char × List Char) → List String → List Char
  | [], _ => []
  | (piece, sep) :: rest, seen =>
    let sentence := pyStrip ⟨piece⟩
    if sentence = "" then cleanLoop rest seen
    else if seen.any (fun t => similar80 sentence t) then cleanLoop rest seen
    else piece ++ sep ++ cleanLoop rest (sentence :: seen)

/-- Python `result.split('.')[-1]`: the suffix after the last dot. -/
def afterLastDot (cs : List Char) : List Char :=
  (cs.reverse.takeWhile (fun c => c ≠ '.')).reverse

/-- Python `str.rstrip` with a character predicate. -/
def rstripChars (p : Char → Bool) (cs : List Char) : List Char :=
  (cs.reverse.dropWhile p).reverse

/-- text_quality.clean_repetitive_text. -/
def clean_repetitive_text (text : String) : String :=
  if text = "" then text
  else
    let pairs := splitSentencesAux [] text.data
    let result := pyStripL (cleanLoop pairs [])
    match result.getLast? with
    | none => (⟨result⟩ : String)
    | some lastC =>
      if isTermChar lastC then ⟨result⟩
      else
        let lastSentence := if ('.' : Char) ∈ result then afterLastDot result else result
        if 10 < (pyStripL lastSentence).length then
          let r1 := rstripChars isPySpace (rstripChars (fun c => c = '.') result)
          match r1.getLast? with
          | none => (⟨r1⟩ : String)
          | some c => if isTermChar c then ⟨r1⟩ else ⟨r1 ++ ['.']⟩
        else ⟨result⟩

/-- A word character of the regex class `\w` for the text handled by this
code base: ASCII alphanumerics, underscore, and Hangul (syllables and jamo). -/
def isWordChar (c : Char) : Bool :=
  (('a' ≤ c && c ≤ 'z') || ('A' ≤ c && c ≤ 'Z') || ('0' ≤ c && c ≤ '9') || c = '_')
    || (0xAC00 ≤ c.toNat && c.toNat ≤ 0xD7A3) || (0x1100 ≤ c.toNat && c.toNat ≤ 0x11FF)
    || (0x3130 ≤ c.toNat && c.toNat ≤ 0x318F)

/-- One pass over maximal word-character runs: `acc` holds the current run
in reverse. -/
def wordRunsAux (acc : List Char) : List Char → List (List Char)
  | [] => if acc.isEmpty then [] else [acc.reverse]
  | c :: cs =>
    if isWordChar c then wordRunsAux (c :: acc) cs
    else if acc.isEmpty then wordRunsAux [] cs
    else acc.reverse :: wordRunsAux [] cs

/-- Maximal runs of word characters: Python `re.findall(r'\b\w+\b', s)`. -/
def wordRuns (cs : List Char) : List (List Char) := wordRunsAux [] cs

/-- Python `re.findall(r'\b\w+\b', s)` as strings. -/
def reWords (s : String) : List String := (wordRuns s.data).map (fun w => (⟨w⟩ : String))

/-- Python `str.lower()` (ASCII case folding; Hangul has no case). -/
def pyLower (s : String) : String := ⟨s.data.map Char.toLower⟩

/-- Whether `pre` is a prefix of `l` (second argument a prefix of the first). -/
def prefixOfL : List Char → List Char → Bool
  | _, [] => true
  | [], _ :: _ => false
  | c :: cs, d :: ds => c = d && prefixOfL cs ds

/-- Whether `sub` occurs contiguously in the list. -/
def infixOfL (sub : List Char) : List Char → Bool
  | [] => sub.isEmpty
  | c :: cs => prefixOfL (c :: cs) sub || infixOfL sub cs

/-- Python `sub in s` substring containment. -/
def pyContains (s sub : String) : Bool := infixOfL sub.data s.data

/-- The stop-word set of validate_answer_quality. -/
def stopwords : List String :=
  ["제공", "문서", "에서", "질문", "에", "대한", "정보", "를", "을", "을", "이", "가",
   "는", "은", "의", "와", "과", "도", "로", "으로", "수", "있", "없", "것", "등",
   "및", "또는", "그리고"]

/-- The negative-phrase list of validate_answer_quality. -/
def negativePhrasesV : List String :=
  ["없", "찾을 수 없", "포함되어 있지 않", "설명이 없다", "정보가 없다", "관련 정보가 없다"]

/-- text_quality.validate_answer_quality; returns `(is_valid, error message)`.
The Python signature takes `contexts: Optional[List[str]] = None`; `None` and
`[]` behave identically there (`if contexts:`), so contexts is a plain list
here.  The numeric `.2f` overlap suffix of the two overlap error messages is
elided. -/
def validate_answer_quality (answer : String) (minLength : Nat := 10)
    (maxLength : Nat := 2000) (contexts : List String := []) : Bool × Option String :=
  if answer = "" ∨ pyStrip answer = "" then (false, some "Answer is empty")
  else
    let a := pyStrip answer
    if a.length < minLength then
      (false, some ("Answer is too short (minimum " ++ toString minLength ++ " characters)"))
    else if maxLength < a.length then
      (false, some ("Answer is too long (maximum " ++ toString maxLength ++ " characters)"))
    else if detect_repetition a then (false, some "Answer contains repetitive content")
    else if contexts ≠ [] then
      let answerWords := (reWords (pyLower a)).dedup
      let contextWords := (reWords (pyLower (String.intercalate " " contexts))).dedup
      let meaningfulAnswerWords := answerWords.filter (fun w => w ∉ stopwords)
      let meaningfulContextWords := contextWords.filter (fun w => w ∉ stopwords)
      if meaningfulAnswerWords ≠ [] then
        let commonWords := meaningfulAnswerWords.filter (fun w => w ∈ meaningfulContextWords)
        let lowOverlap := 5 * commonWords.length < meaningfulAnswerWords.length
        if negativePhrasesV.any (fun p => pyContains a p) then
          if lowOverlap then
            (false, some "Answer claims information not found but has very low context overlap")
          else (true, none)
        else
          if lowOverlap then
            (false, some "Answer contains too many words not found in context")
          else (true, none)
      else (true, none)
    else (true, none)

/-- The sentence-bounded truncation loop of post_process_answer: sentences
are kept while the accumulated sentence length stays within `maxLength`
(separators do not count towards the accumulated length, as in the source). -/
def truncateSentences (maxLength : Nat) : List (List Char × List Char) → Nat → List Char
  | [], _ => []
  | (piece, sep) :: rest, currentLength =>
    if maxLength < currentLength + piece.length then []
    else piece ++ sep ++ truncateSentences maxLength rest (currentLength + piece.length)

/-- text_quality.post_process_answer. -/
def post_process_answer (answer : String) (maxLength : Nat := 1000) : String :=
  if answer = "" then answer
  else
    let cleaned := clean_repetitive_text answer
    if maxLength < cleaned.length then
      pyStrip ⟨truncateSentences maxLength (splitSentencesAux [] cleaned.data) 0⟩
    else cleaned

/-- Python `s.split("\n")` (keeps empty pieces, always at least one piece). -/
def splitOnNl : List Char → List (List Char)
  | [] => [[]]
  | c :: cs =>
    if c = '\n' then [] :: splitOnNl cs
    else
      match splitOnNl cs with
      | w :: rest => (c :: w) :: rest
      | [] => [[c]]

/-- Python `"\n".join(line.strip() for line in s.split("\n") if line.strip())`
of prompt.build_simple_response. -/
def collapseLines (s : String) : String :=
  ⟨(List.intersperse ['\n']
      (((splitOnNl s.data).map pyStripL).filter (fun l => l ≠ []))).flatten⟩

/-- prompt.RAGPromptTemplate.build_simple_response.  The interpolation of the
SIMPLE_RESPONSE_PROMPT template is written out as concatenation. -/
def build_simple_response (query : String) (contexts : List String)
    (maxContextLength : Nat := 1000) : String :=
  if contexts = [] then "제공된 문서에서 질문과 관련된 정보를 찾을 수 없습니다."
  else
    let topContexts := contexts.take 3
    let cleanedContexts := topContexts.enum.map (fun p =>
      let cleaned := collapseLines (pyStrip p.2)
      let cleaned2 :=
        if maxContextLength / 3 < cleaned.length then
          (⟨cleaned.data.take (maxContextLength / 3)⟩ : String) ++ "..."
        else cleaned
      "[문서 " ++ toString (p.1 + 1) ++ "]\n" ++ cleaned2)
    let combinedContext := String.intercalate "\n\n" cleanedContexts
    "질문: " ++ query ++ "\n\n제공된 문서에서 찾은 관련 정보:\n\n" ++ combinedContext ++
      "\n\n참고: 위 정보는 제공된 문서에서 추출한 내용입니다. 더 정확한 답변을 원하시면 LLM을 사용하는 옵션을 활성화해주세요."

/-- models.chunk.ChunkMetadata (the fields carried along with a search hit). -/
structure ChunkMetadata where
  document_id : String
  chunk_index : Nat
deriving Repr, DecidableEq

/-- models.search_result.SearchResult.  The float similarity score is
modelled as a rational. -/
structure SearchResult where
  text : String
  score : ℚ
  metadata : ChunkMetadata
deriving Repr, DecidableEq

/-- services.pipeline result dictionary of RAGPipeline.run. -/
structure PipelineResult where
  query : String
  answer : String
  contexts : List String
  sources : List SearchResult
  top_k : Int
deriving Repr, DecidableEq

/-- Oracle for the external LLM collaborator (managers.qwen.QwenManager):
whether the singleton model loader reports the model loaded, whether a lazy
`initialize()` would succeed (`load_model` re-raises loading failures), and
the outcome of `generate_with_context` (`.error` = the awaited call raised). -/
structure LLMOracle where
  isLoadedB : Bool
  initOk : Bool
  genResult : Except String String
deriving Repr

/-- The errors RAGPipeline can surface to its caller. -/
inductive PipeError
  | valueError (msg : String)
  | retrievalError (msg : String)
  | llmInitError (msg : String)
deriving Repr, DecidableEq

/-- The negative-phrase list used in RAGPipeline.generate (distinct from the
one in validate_answer_quality). -/
def negativePhrasesP : List String :=
  ["없", "찾을 수 없", "포함되어 있지 않", "설명이 없다", "정보가 없다"]

/-- services.pipeline.RAGPipeline.generate.  `llm` is `none` when no
llm_manager is configured.  The system_prompt argument only alters the prompt
sent to the external generator, whose output is the oracle, so it is not a
parameter here. -/
def RAGPipeline.generate (query : String) (contexts : List String) (useLlm : Bool)
    (llm : Option LLMOracle) : Except PipeError String :=
  if contexts = [] then .ok "제공된 문서에서 질문과 관련된 정보를 찾을 수 없습니다."
  else
    let validContexts := contexts.filter
      (fun ctx => decide (ctx ≠ "") && decide (pyStrip ctx ≠ "") && decide (20 ≤ (pyStrip ctx).length))
    if validContexts = [] then .ok "제공된 문서에서 질문과 관련된 유용한 정보를 찾을 수 없습니다."
    else
      if useLlm then
        match llm with
        | some o =>
          -- the lazy initialize() happens before the try block: a loading
          -- failure propagates out of generate
          if !o.isLoadedB && !o.initOk then .error (.llmInitError "model loading failed")
          else
            match o.genResult with
            | .error _ => .ok (build_simple_response query validContexts)
            | .ok rawAnswer =>
              let answer := post_process_answer rawAnswer 1000
              if negativePhrasesP.any (fun p => pyContains answer p) then
                let queryKeywords := (reWords (pyLower query)).dedup
                let contextTextLower := pyLower (String.intercalate " " validContexts)
                if queryKeywords.any (fun k => decide (1 < k.length) && pyContains contextTextLower k) then
                  .ok (build_simple_response query validContexts)
                else if (validate_answer_quality answer 10 2000 validContexts).1 then .ok answer
                else .ok (build_simple_response query validContexts)
              else
                if (validate_answer_quality answer 10 2000 validContexts).1 then .ok answer
                else if rawAnswer ≠ "" ∧ 10 ≤ (pyStrip rawAnswer).length then
                  if !(detect_repetition rawAnswer) then .ok rawAnswer
                  else .ok (build_simple_response query validContexts)
                else .ok (build_simple_response query validContexts)
        | none => .ok (build_simple_response query validContexts)
      else .ok (build_simple_response query validContexts)

/-- The score filter of RAGPipeline.run: keep results with non-empty,
non-whitespace text and score at least MIN_RELEVANCE_SCORE = 0.5
(written `mkRat 1 2`, the exact rational one half). -/
def scoreKeep (r : SearchResult) : Bool :=
  decide (r.text ≠ "") && decide (pyStrip r.text ≠ "") && decide (mkRat 1 2 ≤ r.score)

/-- The context-quality filter of RAGPipeline.run: stripped length at least
MIN_CONTEXT_LENGTH = 20 and not starting with a dot. -/
def contextKeep (ctx : String) : Bool :=
  decide (20 ≤ (pyStrip ctx).length) &&
    !(match (pyStrip ctx).data with | d :: _ => d = '.' | [] => false)

/-- services.pipeline.RAGPipeline.run.  `searchOutcome` is the outcome of the
external `vector_repository.search_similar` call (`.error` = the retrieval
infrastructure raised). -/
def RAGPipeline.run (query : String) (topK : Int) (useLlm : Bool)
    (llm : Option LLMOracle) (searchOutcome : Except String (List SearchResult)) :
    Except PipeError PipelineResult :=
  if query = "" ∨ pyStrip query = "" then .error (.valueError "Query cannot be empty")
  else if topK ≤ 0 then .error (.valueError "top_k must be greater than 0")
  else
    match searchOutcome with
    | .error e => .error (.retrievalError e)
    | .ok searchResults =>
      if searchResults = [] then
        .ok ⟨query, "관련된 문서를 찾을 수 없습니다.", [], [], topK⟩
      else
        let filteredResults := searchResults.filter scoreKeep
        if filteredResults = [] then
          .ok ⟨query, "제공된 문서에서 질문과 관련된 정보를 찾을 수 없습니다. 다른 질문을 시도해주세요.",
               [], [], topK⟩
        else
          let contexts := filteredResults.map (fun r => r.text)
          let validContexts := contexts.filter contextKeep
          if validContexts = [] then
            .ok ⟨query, "제공된 문서에서 질문과 관련된 유용한 정보를 찾을 수 없습니다.",
                 [], filteredResults, topK⟩
          else
            match RAGPipeline.generate query validContexts useLlm llm with
            | .error e => .error e
            | .ok answer => .ok ⟨query, answer, validContexts, filteredResults, topK⟩

/-- utils.chunker.MarkdownChunker configuration.  The constructor rejects
`chunk_size ≤ 0`, `chunk_overlap ≥ chunk_size` and negative overlap with
ValueError; validity is carried as hypotheses on the theorems. -/
structure MarkdownChunker where
  chunk_size : Nat
  chunk_overlap : Nat
deriving Repr, DecidableEq

/-- Whether a line opens a new section: the regex `^#{1,6}\s+` (one to six
hash marks immediately followed by a whitespace character) or a line whose
strip equals "---". -/
def headingOrRule (line : List Char) : Bool :=
  (let h := (line.takeWhile (fun c => c = '#')).length
   decide (1 ≤ h) && decide (h ≤ 6) &&
     (match line.drop h with | d :: _ => isPySpace d | [] => false))
  || decide (pyStripL line = ['-', '-', '-'])

/-- Python `"\n".join(lines)`. -/
def joinLines (ls : List (List Char)) : List Char := (List.intersperse ['\n'] ls).flatten

/-- The line fold of MarkdownChunker._split_into_sections; the current
section is carried in reverse line order. -/
def splitSectionsAux : List (List Char) → List (List Char) → List (List Char)
  | currentRev, [] => if currentRev.isEmpty then [] else [joinLines currentRev.reverse]
  | currentRev, line :: rest =>
    if headingOrRule line && !currentRev.isEmpty then
      joinLines currentRev.reverse :: splitSectionsAux [line] rest
    else
      splitSectionsAux (line :: currentRev) rest

/-- utils.chunker.MarkdownChunker._split_into_sections. -/
def splitIntoSections (markdown : String) : List (List Char) :=
  splitSectionsAux [] (splitOnNl markdown.data)

/-- Python `section.rfind(c, start, stop)` maximised over `'.'` and `'\n'`:
the greatest index `i` with `start ≤ i < stop` holding a period or newline
(`none` plays the role of `-1`). -/
def lastBreakIdx (sect : List Char) (start stop : Nat) : Option Nat :=
  ((List.range stop).filter (fun i =>
    decide (start ≤ i) &&
      (match sect.get? i with | some c => c = '.' || c = '\n' | none => false))).getLast?

/-- The end-of-window computation of one _chunk_section iteration: cut at
the last sentence break strictly past the window start when the window does
not already reach the end of the section. -/
def chunkEnd (mc : MarkdownChunker) (sect : List Char) (start : Nat) : Nat :=
  let end0 := start + mc.chunk_size
  if end0 < sect.length then
    match lastBreakIdx sect start end0 with
    | some b => if start < b then b + 1 else end0
    | none => end0
  else end0

/-- The while loop of MarkdownChunker._chunk_section, run on explicit fuel.
Returns the chunks emitted so far and whether the loop exited (`false` means
the fuel ran out with the loop still running, i.e. a divergence witness when
it holds for every fuel).  The Python `start = end - overlap; if start < 0:
start = end` update is the overlap comparison below. -/
def chunkLoop (mc : MarkdownChunker) (sect : List Char) :
    Nat → Nat → List String → List String × Bool
  | 0, _, acc => (acc, false)
  | fuel + 1, start, acc =>
    if sect.length ≤ start then (acc, true)
    else
      let e := chunkEnd mc sect start
      let chunkText := pyStripL ((sect.drop start).take (e - start))
      let acc2 := if chunkText.isEmpty then acc else acc ++ [(⟨chunkText⟩ : String)]
      let start2 := if e < mc.chunk_overlap then e else e - mc.chunk_overlap
      chunkLoop mc sect fuel start2 acc2

/-- utils.chunker.MarkdownChunker._chunk_section (chunk texts only; the
source pairs each text with an always-empty metadata dict). -/
def chunkSection (mc : MarkdownChunker) (fuel : Nat) (sect : List Char) :
    List String × Bool :=
  if sect.length ≤ mc.chunk_size then ([(⟨pyStripL sect⟩ : String)], true)
  else chunkLoop mc sect fuel 0 []

/-- utils.chunker.MarkdownChunker.chunk_markdown on explicit fuel: the flag
is true when every section loop exited within the fuel. -/
def chunk_markdown (mc : MarkdownChunker) (fuel : Nat) (markdownContent : String) :
    List String × Bool :=
  if markdownContent = "" ∨ pyStrip markdownContent = "" then ([], true)
  else
    (splitIntoSections markdownContent).foldl
      (fun st sect =>
        let r := chunkSection mc fuel sect
        (st.1 ++ r.1, st.2 && r.2))
      ([], true)

/-! ## Helper lemmas -/

theorem pyStripL_length_le (cs : List Char) : (pyStripL cs).length ≤ cs.length := by
  unfold pyStripL
  simp only [List.length_reverse]
  exact le_trans (length_dropWhile_le _ _)
    (by simpa using length_dropWhile_le isPySpace cs)

theorem lastBreakIdx_lt {sect : List Char} {start stop b : Nat}
    (h : lastBreakIdx sect start stop = some b) : b < stop := by
  unfold lastBreakIdx at h
  have hb := List.mem_of_mem_getLast? h
  exact List.mem_range.mp (List.mem_filter.mp hb).1

/-! ## C3: chunker termination (code bug) -/

/-- The single section of the C3 failing input. -/
def c3Section : List Char := "abc.defghijkl".data

theorem chunkLoop_c3_step (n : Nat) (acc : List String) :
    chunkLoop ⟨5, 3⟩ c3Section (n + 1) 1 acc = chunkLoop ⟨5, 3⟩ c3Section n 1 (acc ++ ["bc."]) :=
  rfl

theorem chunkLoop_c3_stuck : ∀ (fuel : Nat) (acc : List String),
    (chunkLoop ⟨5, 3⟩ c3Section fuel 1 acc).2 = false := by
  intro fuel
  induction fuel with
  | zero => intro acc; rfl
  | succ n ih =>
    intro acc
    rw [chunkLoop_c3_step]
    exact ih _

/-- C3.  The claim states that for every valid configuration
(chunk_size > 0, 0 ≤ chunk_overlap < chunk_size) chunking terminates on
every input.  The code violates this: with chunk_size = 5, chunk_overlap = 3
and input "abc.defghijkl" (one section, a period at index 3), the window
start regresses from the sentence-boundary cut (start = end - overlap with
end = last_break + 1 = 4) back to 1 on every iteration, so _chunk_section
loops forever re-emitting the chunk "bc.".  The code's own comment announces
infinite-loop prevention, so the claim reflects the intent and the code is a
slip: no amount of fuel makes the fuel-indexed loop finish. -/
theorem c3_chunker_diverges :
    ∀ fuel : Nat, (chunk_markdown ⟨5, 3⟩ fuel "abc.defghijkl").2 = false := by
  intro fuel
  cases fuel with
  | zero => rfl
  | succ n =>
    show (chunkLoop ⟨5, 3⟩ c3Section n 1 ["abc."]).2 = false
    exact chunkLoop_c3_stuck n ["abc."]

/-! ## C4: chunk length bound -/

theorem chunkEnd_le (mc : MarkdownChunker) (sect : List Char) (start : Nat) :
    chunkEnd mc sect start ≤ start + mc.chunk_size := by
  unfold chunkEnd
  simp only []
  split
  · split
    · next b hb =>
      split
      · exact Nat.succ_le_of_lt (lastBreakIdx_lt hb)
      · exact Nat.le_refl _
    · exact Nat.le_refl _
  · exact Nat.le_refl _

theorem chunkLoop_length_bound (mc : MarkdownChunker) (sect : List Char) :
    ∀ (fuel start : Nat) (acc : List String),
      (∀ c ∈ acc, c.length ≤ mc.chunk_size) →
      ∀ c ∈ (chunkLoop mc sect fuel start acc).1, c.length ≤ mc.chunk_size := by
  intro fuel
  induction fuel with
  | zero => intro start acc hacc; exact hacc
  | succ n ih =>
    intro start acc hacc c hc
    rw [chunkLoop] at hc
    by_cases hlen : sect.length ≤ start
    · rw [if_pos hlen] at hc
      exact hacc c hc
    · rw [if_neg hlen] at hc
      refine ih _ _ ?_ c hc
      intro d hd
      have hchunk :
          (pyStripL ((sect.drop start).take (chunkEnd mc sect start - start))).length ≤
            mc.chunk_size := by
        refine le_trans (pyStripL_length_le _) (le_trans (List.length_take_le _ _) ?_)
        have := chunkEnd_le mc sect start
        omega
      by_cases hemp :
          (pyStripL ((sect.drop start).take (chunkEnd mc sect start - start))).isEmpty
      · rw [if_pos hemp] at hd
        exact hacc d hd
      · rw [if_neg hemp] at hd
        rcases List.mem_append.mp hd with h | h
        · exact hacc d h
        · rcases List.mem_singleton.mp h with rfl
          exact hchunk

theorem chunkSection_length_bound (mc : MarkdownChunker) (fuel : Nat) (sect : List Char) :
    ∀ c ∈ (chunkSection mc fuel sect).1, c.length ≤ mc.chunk_size := by
  intro c hc
  rw [chunkSection] at hc
  by_cases h : sect.length ≤ mc.chunk_size
  · rw [if_pos h] at hc
    rcases List.mem_singleton.mp hc with rfl
    exact le_trans (pyStripL_length_le _) h
  · rw [if_neg h] at hc
    exact chunkLoop_length_bound mc sect fuel 0 [] (by intro d hd; cases hd) c hc

theorem chunkFold_length_bound (mc : MarkdownChunker) (fuel : Nat) :
    ∀ (sects : List (List Char)) (st : List String × Bool),
      (∀ c ∈ st.1, c.length ≤ mc.chunk_size) →
      ∀ c ∈ (sects.foldl
          (fun st sect =>
            let r := chunkSection mc fuel sect
            (st.1 ++ r.1, st.2 && r.2)) st).1,
        c.length ≤ mc.chunk_size := by
  intro sects
  induction sects with
  | nil => intro st hst; exact hst
  | cons s rest ih =>
    intro st hst c hc
    refine ih _ ?_ c hc
    intro d hd
    rcases List.mem_append.mp hd with h | h
    · exact hst d h
    · exact chunkSection_length_bound mc fuel s d h

/-- C4.  For every valid chunker configuration and input, every chunk text
emitted by chunk_markdown (at any fuel, hence also every chunk emitted along
a diverging run) has length at most chunk_size, and a section whose own
length is at most chunk_size is emitted verbatim (trimmed) as a single
chunk. -/
theorem c4_chunk_length_bound (mc : MarkdownChunker)
    (_hsize : 0 < mc.chunk_size) (_hoverlap : mc.chunk_overlap < mc.chunk_size) :
    (∀ (fuel : Nat) (text : String) (c : String),
        c ∈ (chunk_markdown mc fuel text).1 → c.length ≤ mc.chunk_size) ∧
    (∀ (fuel : Nat) (sect : List Char), sect.length ≤ mc.chunk_size →
        chunkSection mc fuel sect = ([(⟨pyStripL sect⟩ : String)], true)) := by
  constructor
  · intro fuel text c hc
    rw [chunk_markdown] at hc
    by_cases h : text = "" ∨ pyStrip text = ""
    · rw [if_pos h] at hc
      cases hc
    · rw [if_neg h] at hc
      exact chunkFold_length_bound mc fuel _ _ (by intro d hd; cases hd) c hc
  · intro fuel sect h
    rw [chunkSection, if_pos h]

/-- Witness for C4 at the repository's default configuration (500, 50): the
input "hello" is chunked to itself, and the bound applies to it. -/
theorem c4_chunk_length_bound_witness :
    "hello" ∈ (chunk_markdown ⟨500, 50⟩ 100 "hello").1 ∧ ("hello" : String).length ≤ 500 :=
  ⟨by decide,
   (c4_chunk_length_bound ⟨500, 50⟩ (by decide) (by decide)).1 100 "hello" "hello" (by decide)⟩

/-! ## C5: characterization of detect_repetition -/

theorem adjacentRepeat_eq (minL : Nat) :
    ∀ l : List String,
      adjacentRepeat minL l =
        (l.zip l.tail).any (fun p => decide (minL ≤ p.1.length) && pairRepeat p.1 p.2)
  | [] => rfl
  | [_] => rfl
  | a :: b :: r => by
    rw [adjacentRepeat, adjacentRepeat_eq minL (b :: r)]
    rfl

/-- The claim's characterization of detect_repetition, amended with the
guards present in the code: total text length at least 40 (twice the default
minimum repeat length), an adjacent-sentence scan that skips pairs whose
first raw sentence is shorter than 20 characters, and the word-dominance
test applying only to texts of more than 10 words. -/
def detectRepetitionSpec (text : String) : Bool :=
  decide (40 ≤ text.length) &&
    (((sentencePieces text).zip (sentencePieces text).tail).any
        (fun p => decide (20 ≤ p.1.length) && pairRepeat p.1 p.2)
      ||
      (decide (10 < (pyWords text).length) &&
        decide (3 * (pyWords text).length < 10 * maxWordCount (pyWords text))))

set_option maxRecDepth 100000 in
/-- C5 (amended).  detect_repetition returns true exactly as described by
detectRepetitionSpec: the text is at least 40 characters long and either
(a) some adjacent sentence pair whose first sentence is at least 20
characters long is identical after stripping or shares (as word sets) more
than 70% of the larger sentence's word count, or (b) the text has more than
10 words and a single word accounts for more than 30% of them.  In
particular a sentence of at least 20 characters concatenated 5 times is
flagged, and 5 distinct unrelated sentences are not. -/
theorem c5_detect_repetition_characterization :
    (∀ text : String, detect_repetition text = detectRepetitionSpec text) ∧
    detect_repetition
      "this answer repeats itself again. this answer repeats itself again. this answer repeats itself again. this answer repeats itself again. this answer repeats itself again. " = true ∧
    detect_repetition
      "The weather is cold today. My cat sleeps on the mat. Quantum physics is hard. We went hiking near the river. Dinner will be ready soon." = false := by
  refine ⟨?_, by decide, by decide⟩
  intro text
  rw [detect_repetition, detectRepetitionSpec, ← adjacentRepeat_eq]
  by_cases h : text = "" ∨ text.length < 2 * 20
  · rw [if_pos h]
    have h40 : ¬ (40 ≤ text.length) := by
      rcases h with h | h
      · subst h; decide
      · omega
    simp [h40]
  · rw [if_neg h]
    push_neg at h
    have h40 : decide (40 ≤ text.length) = true := by
      simp only [decide_eq_true_eq]
      omega
    rw [h40, Bool.true_and]
    by_cases ha : adjacentRepeat 20 (sentencePieces text) = true
    · simp [ha]
    · simp only [Bool.not_eq_true] at ha
      rw [ha, Bool.false_or]
      by_cases hw : 10 < (pyWords text).length
      · simp [ha, hw]
      · simp [ha, hw]

/-- C5 counterexample to the claim as stated: "Hi. " concatenated 5 times
has two lexically adjacent identical sentences (the split pieces are five
copies of "Hi"), so the claim requires detect_repetition to flag it, yet the
code returns false (the text is shorter than 40 characters and every
sentence is shorter than 20 characters). -/
theorem c5_exact_characterization_fails :
    detect_repetition "Hi. Hi. Hi. Hi. Hi. " = false ∧
    sentencePieces "Hi. Hi. Hi. Hi. Hi. " = ["Hi", "Hi", "Hi", "Hi", "Hi", ""] := by
  exact ⟨by decide, by decide⟩

/-! ## C6: idempotence of clean_repetitive_text -/

set_option maxRecDepth 100000 in
/-- C6 counterexample.  clean_repetitive_text is not idempotent: on this
input the first pass keeps both sentences (Jaccard 9/12 ≤ 0.8) and strips
the trailing space, which glues the final period onto the last sentence; on
the second pass the re-split last sentence ends in that period, its word set
now shares 10 of 11 words with the first sentence (10/11 > 0.8), and it is
dropped. -/
theorem c6_clean_not_idempotent :
    clean_repetitive_text (clean_repetitive_text
        "a b c d e f g h i j z.. a b c d e f g h i z. ") ≠
      clean_repetitive_text "a b c d e f g h i j z.. a b c d e f g h i z. " := by
  decide

set_option maxRecDepth 100000 in
/-- C6 (amended).  clean_repetitive_text is idempotent on representative
repetitive inputs (the spec's own testable property): the same sentence
repeated five times, and a text whose duplicate sentences are interleaved
with a distinct one — but not on every string. -/
theorem c6_clean_idempotent_on_repetitive_input :
    (clean_repetitive_text (clean_repetitive_text
        "I like green apples today. I like green apples today. I like green apples today. I like green apples today. I like green apples today. ") =
      clean_repetitive_text
        "I like green apples today. I like green apples today. I like green apples today. I like green apples today. I like green apples today. ") ∧
    (clean_repetitive_text (clean_repetitive_text
        "The cat sat here. The cat sat here. The dog ran away. The cat sat here. ") =
      clean_repetitive_text
        "The cat sat here. The cat sat here. The dog ran away. The cat sat here. ") := by
  exact ⟨by decide, by decide⟩

/-! ## C9: behaviour on empty / whitespace-only input -/

theorem pyStripL_all_space {cs : List Char} (h : ∀ c ∈ cs, isPySpace c = true) :
    pyStripL cs = [] := by
  unfold pyStripL
  rw [List.dropWhile_eq_nil_iff.mpr h]
  rfl

theorem pyStrip_all_space {s : String} (hs : ∀ c ∈ s.data, isPySpace c = true) :
    pyStrip s = "" := by
  show (⟨pyStripL s.data⟩ : String) = ""
  rw [pyStripL_all_space hs]

theorem space_not_term {c : Char} (h : isPySpace c = true) : isTermChar c = false := by
  simp only [isPySpace, Bool.or_eq_true, decide_eq_true_eq] at h
  rcases h with ((((rfl | rfl) | rfl) | rfl) | rfl) | rfl <;> decide

theorem opensSep_of_not_term {c : Char} (h : isTermChar c = false) :
    ∀ cs : List Char, opensSep c cs = false := by
  intro cs
  cases cs with
  | nil => rfl
  | cons d ds => simp [opensSep, h]

theorem splitWsAux_all_space :
    ∀ cs : List Char, (∀ c ∈ cs, isPySpace c = true) → splitWsAux [] cs = []
  | [], _ => rfl
  | c :: cs, h => by
    rw [splitWsAux, if_pos (h c (List.mem_cons_self c cs))]
    exact splitWsAux_all_space cs (fun d hd => h d (List.mem_cons_of_mem c hd))

theorem splitSentGo_all_space :
    ∀ (cs acc : List Char), (∀ c ∈ cs, isPySpace c = true) →
      splitSentGo acc [] cs = [(acc.reverse ++ cs, [])]
  | [], acc, _ => by simp [splitSentGo]
  | c :: cs, acc, h => by
    have hsp := h c (List.mem_cons_self c cs)
    have hop := opensSep_of_not_term (space_not_term hsp) cs
    rw [splitSentGo,
      splitSentGo_all_space cs (c :: acc) (fun d hd => h d (List.mem_cons_of_mem c hd))]
    simp [hop]

/-- C9.  The four text-quality operations are total Lean functions of their
string input (the embedding covers every branch of the source, whose guards
make division and indexing safe), and on empty or whitespace-only input they
return trivial values: false, the empty string, an invalid verdict with
reason "Answer is empty", and the empty string. -/
theorem c9_quality_functions_total_on_whitespace (s : String)
    (hs : ∀ c ∈ s.data, isPySpace c = true)
    (minLength maxLength m : Nat) (contexts : List String) :
    detect_repetition s = false ∧
    clean_repetitive_text s = "" ∧
    validate_answer_quality s minLength maxLength contexts = (false, some "Answer is empty") ∧
    post_process_answer s m = "" := by
  have hstrip : pyStrip s = "" := pyStrip_all_space hs
  have hclean : clean_repetitive_text s = "" := by
    rw [clean_repetitive_text]
    by_cases h0 : s = ""
    · rw [if_pos h0, h0]
    · rw [if_neg h0]
      have hpairs : splitSentencesAux [] s.data = [(s.data, [])] := by
        rw [splitSentencesAux, splitSentGo_all_space s.data [] hs]
        rfl
      have hloop : cleanLoop [(s.data, [])] [] = [] := by
        rw [cleanLoop]
        have : pyStrip ⟨s.data⟩ = "" := hstrip
        rw [if_pos this]
        rfl
      simp only []
      rw [hpairs, hloop]
      rfl
  refine ⟨?_, hclean, ?_, ?_⟩
  · rw [detect_repetition]
    by_cases h0 : s = "" ∨ s.length < 2 * 20
    · rw [if_pos h0]
    · rw [if_neg h0]
      have hsent : sentencePieces s = [s] := by
        rw [sentencePieces, splitSentences, splitSentencesAux,
          splitSentGo_all_space s.data [] hs]
        rfl
      have hwords : pyWords s = [] := by
        rw [pyWords, pySplitWsL, splitWsAux_all_space s.data hs]
        rfl
      rw [hsent, hwords]
      rfl
  · rw [validate_answer_quality, if_pos (Or.inr hstrip)]
  · rw [post_process_answer]
    by_cases h0 : s = ""
    · rw [if_pos h0, h0]
    · rw [if_neg h0, hclean]
      rfl

/-- Witness for C9 at the single-space input. -/
theorem c9_whitespace_witness :
    detect_repetition " " = false ∧
    clean_repetitive_text " " = "" ∧
    validate_answer_quality " " 10 2000 ["some context"] = (false, some "Answer is empty") ∧
    post_process_answer " " 1000 = "" :=
  c9_quality_functions_total_on_whitespace " " (by decide) 10 2000 1000 ["some context"]

/-! ## C10: post_process_answer keeps nothing when the first sentence is too long -/

/-- The first sentence piece of the capture split (Python `sentences[0]`). -/
def firstSentenceOf (s : String) : String :=
  (⟨((splitSentencesAux [] s.data).headD ([], [])).1⟩ : String)

theorem splitSentGo_ne_nil : ∀ (cs acc sep : List Char), splitSentGo acc sep cs ≠ []
  | [], acc, sep => by
    rw [splitSentGo]
    split <;> simp
  | c :: cs, acc, sep => by
    rw [splitSentGo]
    split
    · split
      · exact splitSentGo_ne_nil cs acc [c]
      · exact splitSentGo_ne_nil cs (c :: acc) []
    · split
      · exact splitSentGo_ne_nil cs acc (c :: sep)
      · simp

/-- C10.  When the cleaned answer exceeds max_length and already its first
sentence piece is longer than max_length, the sentence-bounded truncation of
post_process_answer stops before the first sentence and the result is the
empty string. -/
theorem c10_post_process_empty_when_first_sentence_too_long
    (answer : String) (m : Nat)
    (h1 : m < (clean_repetitive_text answer).length)
    (h2 : m < (firstSentenceOf (clean_repetitive_text answer)).length) :
    post_process_answer answer m = "" := by
  have hne : answer ≠ "" := by
    intro h0
    rw [h0] at h1
    simp [clean_repetitive_text] at h1
  rw [post_process_answer, if_neg hne, if_pos h1]
  rcases hpairs : splitSentencesAux [] (clean_repetitive_text answer).data with _ | ⟨⟨p, sp⟩, rest⟩
  · exact absurd hpairs (splitSentGo_ne_nil _ _ _)
  · have hp : m < p.length := by
      have : firstSentenceOf (clean_repetitive_text answer) = ⟨p⟩ := by
        rw [firstSentenceOf, hpairs]
        rfl
      rw [this] at h2
      exact h2
    rw [truncateSentences, if_pos (by omega)]
    rfl

/-- Witness for C10: a 19-character answer with no sentence terminator is
cleaned to a 20-character single sentence, which exceeds max_length 10, so
everything is dropped. -/
theorem c10_witness :
    10 < (clean_repetitive_text "aaaa bbbb cccc dddd").length ∧
    post_process_answer "aaaa bbbb cccc dddd" 10 = "" :=
  ⟨by decide,
   c10_post_process_empty_when_first_sentence_too_long "aaaa bbbb cccc dddd" 10
     (by decide) (by decide)⟩

/-- Decidable equality of pipeline outcomes, used to evaluate the embedded
pipeline on concrete inputs. -/
def exceptDecEq {e a : Type} [DecidableEq e] [DecidableEq a] :
    (x y : Except e a) → Decidable (x = y)
  | .error u, .error v =>
    if h : u = v then .isTrue (by rw [h])
    else .isFalse (by intro hh; injection hh with h2; exact h h2)
  | .error _, .ok _ => .isFalse (by intro hh; cases hh)
  | .ok _, .error _ => .isFalse (by intro hh; cases hh)
  | .ok u, .ok v =>
    if h : u = v then .isTrue (by rw [h])
    else .isFalse (by intro hh; injection hh with h2; exact h h2)

instance {e a : Type} [DecidableEq e] [DecidableEq a] : DecidableEq (Except e a) :=
  exceptDecEq

/-! ## C8: score filtering -/

set_option maxRecDepth 100000 in
/-- C8.  The score filter of RAGPipeline.run keeps exactly the results whose
text is non-empty and non-whitespace and whose score is not below 0.5 — that
is, it drops exactly those with empty/whitespace text or score < 1/2 — and
on the claim's example (three retrieved results scoring 0.9, 0.4, 0.2 with
non-trivial texts) only the 0.9 result survives score filtering, the
returned contexts have length 1 and the sources carry exactly the surviving
result. -/
theorem c8_score_filter_characterization :
    (∀ rs : List SearchResult,
      rs.filter scoreKeep =
        rs.filter (fun r => !(decide (r.text = "") || decide (pyStrip r.text = "") ||
          decide (r.score < (1 / 2 : ℚ))))) ∧
    (RAGPipeline.run "which items are listed" 3 false none
        (.ok [⟨"alpha beta gamma delta epsilon zeta words", mkRat 9 10, ⟨"d1", 0⟩⟩,
              ⟨"second context text with enough length ok", mkRat 4 10, ⟨"d2", 1⟩⟩,
              ⟨"third context text also long enough here", mkRat 2 10, ⟨"d3", 2⟩⟩]) =
      .ok ⟨"which items are listed",
           build_simple_response "which items are listed"
             ["alpha beta gamma delta epsilon zeta words"] 1000,
           ["alpha beta gamma delta epsilon zeta words"],
           [⟨"alpha beta gamma delta epsilon zeta words", mkRat 9 10, ⟨"d1", 0⟩⟩], 3⟩) := by
  constructor
  · intro rs
    apply List.filter_congr
    intro r _
    rw [scoreKeep]
    have hhalf : mkRat 1 2 = (1 / 2 : ℚ) := by norm_num [Rat.mkRat_eq_div]
    rw [hhalf]
    simp only [Bool.not_or, ← decide_not, not_lt]
  · decide

/-! ## C7: build_simple_response -/

/-- The spec-side reading of build_simple_response: the fixed no-information
wording on empty contexts; otherwise the first three contexts — each
stripped, internal blank lines collapsed, truncated to max_context_length/3
characters with an ellipsis marker when truncated — numbered from 1 and
rendered under the question in the fixed template. -/
def buildSimpleResponseSpec (query : String) (contexts : List String)
    (maxContextLength : Nat) : String :=
  if contexts = [] then "제공된 문서에서 질문과 관련된 정보를 찾을 수 없습니다."
  else
    let renderBlock := fun (i : Nat) =>
      let cleaned := collapseLines (pyStrip (contexts.getD i ""))
      let body :=
        if maxContextLength / 3 < cleaned.length then
          (⟨cleaned.data.take (maxContextLength / 3)⟩ : String) ++ "..."
        else cleaned
      "[문서 " ++ toString (i + 1) ++ "]\n" ++ body
    "질문: " ++ query ++ "\n\n제공된 문서에서 찾은 관련 정보:\n\n" ++
      String.intercalate "\n\n" ((List.range (min 3 contexts.length)).map renderBlock) ++
      "\n\n참고: 위 정보는 제공된 문서에서 추출한 내용입니다. 더 정확한 답변을 원하시면 LLM을 사용하는 옵션을 활성화해주세요."

theorem enum_take_map (cs : List String) (f : Nat × String → String) :
    (cs.take 3).enum.map f =
      (List.range (min 3 cs.length)).map (fun i => f (i, cs.getD i "")) := by
  apply List.ext_getElem
  · simp [List.enum_length, List.length_take]
  · intro n h1 h2
    have hn3 : n < (cs.take 3).length := by
      simpa [List.enum_length] using h1
    have hncs : n < cs.length := by
      rw [List.length_take] at hn3
      exact lt_of_lt_of_le hn3 (min_le_right 3 cs.length)
    rw [List.getElem_map, List.getElem_map, List.getElem_enum, List.getElem_range,
      List.getElem_take, List.getD_eq_getElem cs "" hncs]

theorem contextKeep_strip_length {c : String} (h : contextKeep c = true) :
    20 ≤ (pyStrip c).length := by
  rw [contextKeep, Bool.and_eq_true] at h
  exact of_decide_eq_true h.1

/-- generate with use_llm = False returns the simple response whenever every
context passes its internal re-filter (non-empty strip of length ≥ 20). -/
theorem generate_no_llm (q : String) (cs : List String) (llm : Option LLMOracle)
    (h : cs ≠ []) (hall : ∀ c ∈ cs, 20 ≤ (pyStrip c).length) :
    RAGPipeline.generate q cs false llm = .ok (build_simple_response q cs 1000) := by
  rw [RAGPipeline.generate, if_neg h]
  have hfilter : cs.filter (fun ctx => decide (ctx ≠ "") && decide (pyStrip ctx ≠ "") &&
      decide (20 ≤ (pyStrip ctx).length)) = cs := by
    apply List.filter_eq_self.mpr
    intro c hc
    have h20 := hall c hc
    have hstripne : pyStrip c ≠ "" := by
      intro he
      rw [he] at h20
      simp at h20
    have hcne : c ≠ "" := by
      intro he
      apply hstripne
      rw [he]
      rfl
    simp [hcne, hstripne, h20]
  simp only []
  rw [hfilter, if_neg h]
  rfl

set_option maxRecDepth 100000 in
/-- C7.  build_simple_response returns the fixed no-information wording on
empty contexts and otherwise the deterministic rendering described by
buildSimpleResponseSpec; a run with generation disabled is independent of
the LLM oracle (no generator call), and its answer is byte-for-byte
build_simple_response over the surviving contexts. -/
theorem c7_build_simple_response_spec :
    (∀ (q : String) (m : Nat),
        build_simple_response q [] m = "제공된 문서에서 질문과 관련된 정보를 찾을 수 없습니다.") ∧
    (∀ (q : String) (cs : List String) (m : Nat),
        build_simple_response q cs m = buildSimpleResponseSpec q cs m) ∧
    (∀ (q : String) (k : Int) (llm llm2 : Option LLMOracle)
        (so : Except String (List SearchResult)),
        RAGPipeline.run q k false llm so = RAGPipeline.run q k false llm2 so) ∧
    (∀ (q : String) (k : Int) (llm : Option LLMOracle)
        (so : Except String (List SearchResult)) (r : PipelineResult),
        RAGPipeline.run q k false llm so = .ok r → r.contexts ≠ [] →
          r.answer = build_simple_response q r.contexts 1000) := by
  have hgen : ∀ (q : String) (cs : List String) (llm llm2 : Option LLMOracle),
      RAGPipeline.generate q cs false llm = RAGPipeline.generate q cs false llm2 :=
    fun _ _ _ _ => rfl
  refine ⟨fun q m => rfl, ?_, ?_, ?_⟩
  · intro q cs m
    rw [build_simple_response, buildSimpleResponseSpec]
    by_cases h : cs = []
    · rw [if_pos h, if_pos h]
    · rw [if_neg h, if_neg h]
      simp only []
      rw [enum_take_map cs]
  · intro q k llm llm2 so
    have hg : ∀ cs, RAGPipeline.generate q cs false llm = RAGPipeline.generate q cs false llm2 :=
      fun cs => hgen q cs llm llm2
    simp only [RAGPipeline.run, hg]
  · intro q k llm so r hrun hne
    rw [RAGPipeline.run.eq_def] at hrun
    split at hrun
    · cases hrun
    · split at hrun
      · cases hrun
      · split at hrun
        · cases hrun
        · split at hrun
          · injection hrun with h2
            subst h2
            exact absurd rfl hne
          · simp only [] at hrun
            split at hrun
            · injection hrun with h2
              subst h2
              exact absurd rfl hne
            · split at hrun
              · injection hrun with h2
                subst h2
                exact absurd rfl hne
              · rename_i searchResults hsr hfilt hvalid
                rw [generate_no_llm q _ llm hvalid ?hall] at hrun
                case hall =>
                  intro c hc
                  exact contextKeep_strip_length (List.of_mem_filter hc)
                injection hrun with h2
                subst h2
                rfl

set_option maxRecDepth 100000 in
/-- Witness for C7: a concrete run with generation disabled returns exactly
build_simple_response over the surviving contexts. -/
theorem c7_build_simple_response_witness :
    (PipelineResult.mk "what is alpha"
        (build_simple_response "what is alpha" ["alpha beta gamma delta epsilon zeta words"] 1000)
        ["alpha beta gamma delta epsilon zeta words"]
        [⟨"alpha beta gamma delta epsilon zeta words", mkRat 9 10, ⟨"d1", 0⟩⟩] 1).answer =
      build_simple_response "what is alpha"
        (PipelineResult.mk "what is alpha"
          (build_simple_response "what is alpha" ["alpha beta gamma delta epsilon zeta words"] 1000)
          ["alpha beta gamma delta epsilon zeta words"]
          [⟨"alpha beta gamma delta epsilon zeta words", mkRat 9 10, ⟨"d1", 0⟩⟩] 1).contexts
        1000 :=
  c7_build_simple_response_spec.2.2.2 "what is alpha" 1 none
    (.ok [⟨"alpha beta gamma delta epsilon zeta words", mkRat 9 10, ⟨"d1", 0⟩⟩])
    _ (by decide) (by decide)

/-! ## C1: contexts/sources alignment -/

/-- The result returned on the C1 counterexample input: the single retrieved
result scores 0.9 (so it survives score filtering and is kept as a source)
but its 9-character text is dropped by content filtering. -/
def c1Result : PipelineResult :=
  ⟨"what is this", "제공된 문서에서 질문과 관련된 유용한 정보를 찾을 수 없습니다.", [],
   [⟨"tiny text", mkRat 9 10, ⟨"d1", 0⟩⟩], 3⟩

set_option maxRecDepth 100000 in
/-- C1 counterexample.  On the path where content filtering empties the
candidate set, run returns empty contexts together with the non-empty
score-filtered sources, so contexts.length = sources.length fails. -/
theorem c1_alignment_fails_on_content_filter_path :
    RAGPipeline.run "what is this" 3 false none
        (.ok [⟨"tiny text", mkRat 9 10, ⟨"d1", 0⟩⟩]) = .ok c1Result ∧
    c1Result.contexts.length = 0 ∧ c1Result.sources.length = 1 :=
  ⟨by decide, rfl, rfl⟩

/-- C1 (amended).  On every return path of run, the contexts of the returned
PipelineResult are exactly the content-filter survivors of its sources'
texts.  Consequently contexts.length = sources.length with
contexts[i] = sources[i].text holds precisely when content filtering drops
nothing — in particular on the canned empty-retrieval and
empty-after-score-filtering paths, where both lists are empty — but not on
the paths where content filtering removes candidates, where sources keep the
whole score-filtered list. -/
theorem c1_contexts_are_content_filtered_sources
    (q : String) (k : Int) (u : Bool) (llm : Option LLMOracle)
    (so : Except String (List SearchResult)) (r : PipelineResult)
    (h : RAGPipeline.run q k u llm so = .ok r) :
    r.contexts = (r.sources.map (fun sr => sr.text)).filter contextKeep := by
  rw [RAGPipeline.run.eq_def] at h
  split at h
  · cases h
  · split at h
    · cases h
    · split at h
      · cases h
      · split at h
        · injection h with h2
          subst h2
          rfl
        · simp only [] at h
          split at h
          · injection h with h2
            subst h2
            rfl
          · split at h
            · rename_i hvalid
              injection h with h2
              subst h2
              exact hvalid.symm
            · split at h
              · cases h
              · injection h with h2
                subst h2
                rfl

/-- The result of the C1 witness input (score below threshold, canned
answer with empty contexts and sources). -/
def c1WitnessResult : PipelineResult :=
  ⟨"hello world", "제공된 문서에서 질문과 관련된 정보를 찾을 수 없습니다. 다른 질문을 시도해주세요.", [], [], 2⟩

/-- Witness for C1 (amended) at a concrete run. -/
theorem c1_contexts_witness :
    c1WitnessResult.contexts =
      (c1WitnessResult.sources.map (fun sr => sr.text)).filter contextKeep :=
  c1_contexts_are_content_filtered_sources "hello world" 2 false none
    (.ok [⟨"short", mkRat 3 10, ⟨"d1", 0⟩⟩]) c1WitnessResult (by decide)

/-! ## C2: total answer guarantee -/

theorem bsr_ne_empty (q : String) (cs : List String) (m : Nat) :
    build_simple_response q cs m ≠ "" := by
  rw [build_simple_response]
  by_cases h : cs = []
  · rw [if_pos h]
    decide
  · rw [if_neg h]
    intro hy
    have hlen := congrArg String.length hy
    rw [String.length_append, String.length_append, String.length_append,
      String.length_append] at hlen
    have h1 : ("질문: " : String).length = 4 := rfl
    have h2 : ("" : String).length = 0 := rfl
    omega

theorem validate_true_ne_empty {a : String} {mi ma : Nat} {cs : List String}
    (h : (validate_answer_quality a mi ma cs).1 = true) : a ≠ "" := by
  intro he
  rw [validate_answer_quality, if_pos (Or.inl he)] at h
  exact Bool.noConfusion h

theorem generate_ok_ne_empty {q : String} {cs : List String} {u : Bool}
    {llm : Option LLMOracle} {a : String}
    (h : RAGPipeline.generate q cs u llm = .ok a) : a ≠ "" := by
  rw [RAGPipeline.generate.eq_def] at h
  split at h
  · injection h with h2
    subst h2
    decide
  · simp only [] at h
    split at h
    · injection h with h2
      subst h2
      decide
    · split at h
      · split at h
        · split at h
          · cases h
          · split at h
            · injection h with h2
              subst h2
              exact bsr_ne_empty _ _ _
            · split at h
              · split at h
                · injection h with h2
                  subst h2
                  exact bsr_ne_empty _ _ _
                · split at h
                  · rename_i hval
                    injection h with h2
                    subst h2
                    exact validate_true_ne_empty hval
                  · injection h with h2
                    subst h2
                    exact bsr_ne_empty _ _ _
              · split at h
                · rename_i hval
                  injection h with h2
                  subst h2
                  exact validate_true_ne_empty hval
                · split at h
                  · rename_i hraw
                    split at h
                    · injection h with h2
                      subst h2
                      exact hraw.1
                    · injection h with h2
                      subst h2
                      exact bsr_ne_empty _ _ _
                  · injection h with h2
                    subst h2
                    exact bsr_ne_empty _ _ _
        · injection h with h2
          subst h2
          exact bsr_ne_empty _ _ _
      · injection h with h2
        subst h2
        exact bsr_ne_empty _ _ _

theorem generate_error_init {q : String} {cs : List String} {u : Bool}
    {llm : Option LLMOracle} {e : PipeError}
    (h : RAGPipeline.generate q cs u llm = .error e) :
    u = true ∧ ∃ o, llm = some o ∧ o.isLoadedB = false ∧ o.initOk = false := by
  rw [RAGPipeline.generate.eq_def] at h
  split at h
  · cases h
  · simp only [] at h
    split at h
    · cases h
    · split at h
      · rename_i hu
        split at h
        · rename_i o
          split at h
          · rename_i hinit
            rw [Bool.and_eq_true, Bool.not_eq_true', Bool.not_eq_true'] at hinit
            exact ⟨hu, o, rfl, hinit.1, hinit.2⟩
          · exfalso
            split at h
            · cases h
            · split at h
              · split at h
                · cases h
                · split at h
                  · cases h
                  · cases h
              · split at h
                · cases h
                · split at h
                  · split at h
                    · cases h
                    · cases h
                  · cases h
        · cases h
      · cases h

set_option maxRecDepth 100000 in
/-- C2 (amended).  Whenever run returns a PipelineResult its answer is a
non-empty string — across every path: empty retrieval, empty score filter,
empty content filter, generation disabled or unconfigured, generator call
raising, degenerate output replaced by the fallback, refusal handling, and
accepted answers — and an error surfaces only for a blank query, a
non-positive top_k, a retrieval-infrastructure failure, or a generator
lazy-initialization failure (the one generation failure the source does not
absorb, since initialize() is called before the try block). -/
theorem c2_answer_nonempty_total :
    (∀ (q : String) (k : Int) (u : Bool) (llm : Option LLMOracle)
        (so : Except String (List SearchResult)) (r : PipelineResult),
        RAGPipeline.run q k u llm so = .ok r → r.answer ≠ "") ∧
    (∀ (q : String) (k : Int) (u : Bool) (llm : Option LLMOracle)
        (so : Except String (List SearchResult)) (e : PipeError),
        RAGPipeline.run q k u llm so = .error e →
          pyStrip q = "" ∨ k ≤ 0 ∨ (∃ msg, so = .error msg) ∨
            (u = true ∧ ∃ o, llm = some o ∧ o.isLoadedB = false ∧ o.initOk = false)) := by
  constructor
  · intro q k u llm so r h
    rw [RAGPipeline.run.eq_def] at h
    split at h
    · cases h
    · split at h
      · cases h
      · split at h
        · cases h
        · split at h
          · injection h with h2
            subst h2
            exact (by decide : ("관련된 문서를 찾을 수 없습니다." : String) ≠ "")
          · simp only [] at h
            split at h
            · injection h with h2
              subst h2
              exact (by decide :
                ("제공된 문서에서 질문과 관련된 정보를 찾을 수 없습니다. 다른 질문을 시도해주세요." : String) ≠ "")
            · split at h
              · injection h with h2
                subst h2
                exact (by decide : ("제공된 문서에서 질문과 관련된 유용한 정보를 찾을 수 없습니다." : String) ≠ "")
              · split at h
                · cases h
                · rename_i hgen
                  injection h with h2
                  subst h2
                  exact generate_ok_ne_empty hgen
  · intro q k u llm so e h
    rw [RAGPipeline.run.eq_def] at h
    split at h
    · rename_i hq
      left
      rcases hq with hq | hq
      · rw [hq]
        rfl
      · exact hq
    · split at h
      · rename_i hk
        exact Or.inr (Or.inl hk)
      · split at h
        · rename_i msg
          exact Or.inr (Or.inr (Or.inl ⟨msg, rfl⟩))
        · split at h
          · cases h
          · simp only [] at h
            split at h
            · cases h
            · split at h
              · cases h
              · split at h
                · rename_i hgen
                  exact Or.inr (Or.inr (Or.inr (generate_error_init hgen)))
                · cases h

set_option maxRecDepth 100000 in
/-- C2 counterexample.  With a valid query, top_k = 1, a successful
retrieval yielding a high-scoring long context, and an LLM manager whose
model is not loaded and whose lazy initialize() raises, run propagates the
exception instead of returning a PipelineResult — an error that is neither
a bad argument nor a retrieval-infrastructure failure (the lazy
initialization happens before the try block in generate). -/
theorem c2_init_failure_escapes :
    RAGPipeline.run "hello there question" 1 true
        (some ⟨false, false, .ok "whatever answer text"⟩)
        (.ok [⟨"alpha beta gamma delta epsilon zeta words", mkRat 9 10, ⟨"d1", 0⟩⟩]) =
      .error (.llmInitError "model loading failed") := by
  decide

/-- Witness for C2 at a concrete empty-retrieval run. -/
theorem c2_answer_nonempty_witness :
    (PipelineResult.mk "hi there" "관련된 문서를 찾을 수 없습니다." [] [] 1).answer ≠ "" :=
  c2_answer_nonempty_total.1 "hi there" 1 false none (.ok []) _ (by decide)
